import Mathlib

/-!
Verification of the scraping subsystem of the shop-backend repository.

The definitions below are a shallow embedding of the Python modules

  * app/scraper/crawler/html_fetcher.py   (fetch backends, HTML→Markdown
    converter, URL classification, link sanitizer, batch orchestrator)
  * app/scraper/oxylabs/universal/scraper.py  (universal remote-render fetch)
  * app/scraper/youtube/transcript.py     (transcript fetch)
  * app/scraper/reddit/json_parser.py     (Reddit JSON → Markdown)
  * app/scraper/cache.py                  (TTL cache)

Effectful library calls (HTTP requests, json.loads, html5lib.parse,
datetime formatting) are modelled as explicit inputs: each embedded
function takes the outcome of its library calls as an argument and the
pure control flow of the Python source is transcribed verbatim.
Python exceptions are modelled with `Except PyExn`: a function body that
can raise is an `Except`-valued "body" definition mirroring the code in
the `try:` block, and the public function applies the `except` clauses
of the source to that body.
-/

namespace ShopBackend

/-! ### Python string primitives, modelled on `List Char`

Python `str` operations used by the sources, implemented character-wise
so that all definitions evaluate inside the kernel. -/

/-- Substring test on character lists: `sub` occurs contiguously in the
list (the empty list occurs everywhere, as for Python `"" in s`). -/
def listIsInfixOf (sub : List Char) : List Char → Bool
  | [] => sub.isEmpty
  | c :: cs => sub.isPrefixOf (c :: cs) || listIsInfixOf sub cs

/-- Python `sub in s` (substring containment). -/
def pyContains (s sub : String) : Bool :=
  listIsInfixOf sub.data s.data

/-- Python `s.endswith(suffix)`. -/
def pyEndsWith (s suffix : String) : Bool :=
  suffix.data.isSuffixOf s.data

/-- Python `s.startswith(pre)`. -/
def pyStartsWith (s pre : String) : Bool :=
  pre.data.isPrefixOf s.data

/-- Python `s.lower()` (ASCII-adequate; all inputs in this development are ASCII). -/
def pyLower (s : String) : String :=
  ⟨s.data.map Char.toLower⟩

/-- Python `s.strip()` (whitespace stripping at both ends). -/
def pyStrip (s : String) : String :=
  ⟨((s.data.dropWhile Char.isWhitespace).reverse.dropWhile Char.isWhitespace).reverse⟩

/-- Worker for `pySplit`; fuel bounds the recursion by the input length
(each step consumes at least one character, so fuel = length is exact). -/
def pySplitAux (sep : List Char) : Nat → List Char → List Char → List (List Char)
  | 0, _, acc => [acc.reverse]
  | _ + 1, [], acc => [acc.reverse]
  | fuel + 1, c :: cs, acc =>
    if sep.isPrefixOf (c :: cs) then
      acc.reverse :: pySplitAux sep fuel ((c :: cs).drop sep.length) []
    else
      pySplitAux sep fuel cs (c :: acc)

/-- Python `s.split(sep)` for a non-empty separator. -/
def pySplit (s sep : String) : List String :=
  (pySplitAux sep.data s.data.length s.data []).map (fun l => ⟨l⟩)

/-- Worker for `pyReplace`; same fuel discipline as `pySplitAux`. -/
def pyReplaceAux (pat repl : List Char) : Nat → List Char → List Char
  | 0, l => l
  | _ + 1, [] => []
  | fuel + 1, c :: cs =>
    if pat.isPrefixOf (c :: cs) then
      repl ++ pyReplaceAux pat repl fuel ((c :: cs).drop pat.length)
    else
      c :: pyReplaceAux pat repl fuel cs

/-- Python `s.replace(pat, repl)` for a non-empty pattern
(left-to-right, non-overlapping, single pass). -/
def pyReplace (s pat repl : String) : String :=
  ⟨pyReplaceAux pat.data repl.data s.data.length s.data⟩

/-- Python `s * n` for strings, i.e. `n` copies of `s` concatenated. -/
def pyRepeat (s : String) (n : Nat) : String :=
  String.join (List.replicate n s)

/-! ### Output format (html_fetcher.py, class OutputFormat) -/

/-- `OutputFormat` enum of html_fetcher.py: HTML, MARKDOWN or SUMMARY. -/
inductive OutputFormat where
  | html
  | markdown
  | summary
deriving DecidableEq

/-! ### URL classification (html_fetcher.py, lines 413-447) -/

/-- `extract_youtube_id` (html_fetcher.py lines 413-427): take the query
value `v` of a `youtube.com/watch?v=` URL truncated at the next `&`, or
the last path segment of a `youtu.be/` URL, else no id. -/
def extract_youtube_id (url : String) : Option String :=
  if pyContains url "youtube.com/watch?v=" then
    some ((pySplit ((pySplit url "v=").getLastD "") "&").headD "")
  else if pyContains url "youtu.be/" then
    some ((pySplit url "/").getLastD "")
  else
    none

/-- `convert_reddit_url_to_json` (html_fetcher.py lines 430-447): drop one
trailing slash, then append `.json` unless already present. -/
def convert_reddit_url_to_json (url : String) : String :=
  let url1 := if pyEndsWith url "/" then ⟨url.data.dropLast⟩ else url
  if pyEndsWith url1 ".json" then url1 else url1 ++ ".json"

/-! ### Python exceptions and library-call outcomes -/

/-- Exceptions that the embedded code can raise or catch. -/
inductive PyExn where
  | httpStatusError (code : Nat)
  | httpError
  | valueError (msg : String)
  | otherError (msg : String)
deriving DecidableEq

/-! ### JSON values (inputs of the universal scraper and the Reddit converter) -/

/-- JSON values as produced by Python `json.loads` / `response.json()`. -/
inductive J where
  | null
  | bool (b : Bool)
  | num (n : Int)
  | str (s : String)
  | arr (elems : List J)
  | obj (fields : List (String × J))

/-- Association lookup in a JSON object (first matching key, as in a
Python dict whose keys are unique). -/
def lookupField : List (String × J) → String → Option J
  | [], _ => none
  | (k, v) :: rest, key => if k = key then some v else lookupField rest key

/-- Python `d.get(key)` for a JSON value: a lookup on dicts, `None`-like
absence otherwise.  (On a non-dict the Python sources either guard with
`isinstance(..., dict)` / `"k" in d` — where absence and non-dict behave
the same — or would raise `AttributeError`, which the callers' catch-all
`except` clauses turn into their error results; both are modelled by
`none` here and the theorems below only traverse dict-shaped inputs.) -/
def jGet (d : J) (key : String) : Option J :=
  match d with
  | .obj fields => lookupField fields key
  | _ => none

/-- Python `d.get(key, default)`. -/
def jGetD (d : J) (key : String) (dflt : J) : J :=
  (jGet d key).getD dflt

/-- Python truthiness of a JSON value (`if not x: ...`). -/
def jTruthy : J → Bool
  | .null => false
  | .bool b => b
  | .num n => n != 0
  | .str s => s != ""
  | .arr elems => !elems.isEmpty
  | .obj fields => !fields.isEmpty

/-- Python `str(x)` / f-string interpolation of a JSON scalar.  The
sources only interpolate string and integer fields (author names,
scores, comment counts); container reprs are not exercised by any
theorem below and are rendered as `""`. -/
def jShow : J → String
  | .null => "None"
  | .bool b => if b then "True" else "False"
  | .num n => toString n
  | .str s => s
  | .arr _ => ""
  | .obj _ => ""

/-- Python `d.get(key, "")` followed by use as a string (`.strip()`,
`.split()`): the string payload if the field is a string, `""` if
absent.  A present non-string field would make Python raise (caught
upstream by the catch-all `except`, modelled by `RedditIn.bodyRaised`);
the theorems below never take that branch. -/
def jGetStrD (d : J) (key : String) (dflt : String) : String :=
  match jGet d key with
  | some (.str s) => s
  | some _ => dflt
  | none => dflt

/-! ### Fetch backends (html_fetcher.py, transcript.py, oxylabs scraper)

Each backend's `try:` block is a `...body` definition over the outcome
of its network call, returning `Except PyExn`; the public function
applies the source's `except` clauses to the body. -/

/-- Outcome of the network round-trip inside `fetch_direct`
(html_fetcher.py lines 84-99): a server response (of any status), a
transport-level `httpx.HTTPError`, or any other exception raised inside
the `try:` block. -/
inductive DirectOutcome where
  | response (status : Nat) (text : String)
  | transportError
  | otherFailure (msg : String)

/-- The `try:` block of `fetch_direct` (html_fetcher.py lines 84-99):
`response.raise_for_status()` raises `HTTPStatusError` on a 4xx/5xx
status, otherwise the response text is returned. -/
def fetch_direct_body : DirectOutcome → Except PyExn (Option String)
  | .response status text =>
    if 400 ≤ status then .error (.httpStatusError status) else .ok (some text)
  | .transportError => .error .httpError
  | .otherFailure msg => .error (.otherError msg)

/-- `fetch_direct` (html_fetcher.py lines 73-114): the three `except`
clauses (`HTTPStatusError`, `HTTPError`, `Exception`) all log, meter and
return `None`. -/
def fetch_direct (o : DirectOutcome) : Option String :=
  match fetch_direct_body o with
  | .ok content => content
  | .error (.httpStatusError _) => none
  | .error .httpError => none
  | .error _ => none

/-- Outcome of the Spider API round-trip inside `fetch_with_spider`
(html_fetcher.py lines 140-144): a response with status and JSON body,
a transport error, or any other exception. -/
inductive SpiderOutcome where
  | response (status : Nat) (body : J)
  | transportError
  | otherFailure (msg : String)

/-- The `try:` block of `fetch_with_spider` (html_fetcher.py lines
127-157): missing API key raises `ValueError`; `raise_for_status` raises
on 4xx/5xx; a non-list or falsy JSON body, or an absent/falsy `content`
field of its first element, returns `None`; otherwise `str(content)`. -/
def fetch_with_spider_body (apiKey : Option String) :
    SpiderOutcome → Except PyExn (Option String)
  | .response status body =>
    match apiKey with
    | none => .error (.valueError "SPIDER_API_KEY not found in settings")
    | some _ =>
      if 400 ≤ status then .error .httpError
      else
        match body with
        | .arr (first :: _) =>
          match jGet first "content" with
          | some content => if jTruthy content then .ok (some (jShow content)) else .ok none
          | none => .ok none
        | _ => .ok none
  | .transportError =>
    match apiKey with
    | none => .error (.valueError "SPIDER_API_KEY not found in settings")
    | some _ => .error .httpError
  | .otherFailure msg =>
    match apiKey with
    | none => .error (.valueError "SPIDER_API_KEY not found in settings")
    | some _ => .error (.otherError msg)

/-- `fetch_with_spider` (html_fetcher.py lines 117-166): the `except
httpx.HTTPError` and `except Exception` clauses log, meter and return
`None`. -/
def fetch_with_spider (apiKey : Option String) (o : SpiderOutcome) : Option String :=
  match fetch_with_spider_body apiKey o with
  | .ok content => content
  | .error .httpError => none
  | .error _ => none

/-- `_convert_transcript_to_text` (transcript.py lines 7-19): join the
stripped segment texts with `". "` and ensure a trailing period. -/
def convert_transcript_to_text (entries : List String) : String :=
  let transcript_text := String.intercalate ". " (entries.map pyStrip)
  if pyEndsWith transcript_text "." then transcript_text else transcript_text ++ "."

/-- The `try:` block of `aget_transcript` (transcript.py lines 51-56):
the transcript API either raises or yields the segment texts, which are
joined by `_convert_transcript_to_text`. -/
def aget_transcript_body : Except PyExn (List String) → Except PyExn (Option String)
  | .error e => .error e
  | .ok entries => .ok (some (convert_transcript_to_text entries))

/-- `aget_transcript` (transcript.py lines 42-60): the catch-all
`except Exception` logs, meters and returns `None`. -/
def aget_transcript (o : Except PyExn (List String)) : Option String :=
  match aget_transcript_body o with
  | .ok content => content
  | .error _ => none

/-- `fetch_universal` (oxylabs/universal/scraper.py lines 66-125) over
the outcome of `fetch_universal_raw` (which raises `HTTPError` on a
failed API call and `ValueError` on missing credentials — both
propagate, since the function's `except` clause only catches
`KeyError`/`IndexError`/`JSONDecodeError`).  The explicit
`raise ValueError(...)` statements of the body also propagate: on a
missing/empty `results` list, a missing `content` key, a content dict
without an `html` string, or a non-string content, the function raises
instead of returning.  (Exotic non-dict/non-list response shapes, which
Python funnels into the `raise ValueError("Invalid response structure
from Oxylabs API")` re-raise, are modelled by the same
`"No results found in response"` branch; no theorem distinguishes
them.) -/
def fetch_universal (raw : Except PyExn J) : Except PyExn String :=
  match raw with
  | .error e => .error e
  | .ok data =>
    match jGet data "results" with
    | some (.arr (result :: _)) =>
      match jGet result "content" with
      | some (.str s) => .ok s
      | some (.obj fields) =>
        match lookupField fields "html" with
        | some (.str h) => .ok h
        | some _ => .error (.valueError "Invalid HTML content type")
        | none => .error (.valueError "No HTML content found")
      | some _ => .error (.valueError "Unexpected content type")
      | none => .error (.valueError "No content found in result")
    | _ => .error (.valueError "No results found in response")

/-! ### HTML element trees (output of `html5lib.parse`)

`xml.etree` elements as produced by `html5lib.parse`: a namespaced tag,
an attribute dict, optional leading text, child elements and optional
tail text.  A mutual inductive (instead of `List Element` children)
keeps all traversals structurally recursive, hence kernel-evaluable. -/

mutual
inductive Element where
  | mk (tag : String) (attrib : List (String × String)) (text : Option String)
      (children : ElementList) (tail : Option String)
inductive ElementList where
  | nil
  | cons (head : Element) (tail : ElementList)
end

/-- `elem.tag`. -/
def Element.tag : Element → String
  | .mk t _ _ _ _ => t

/-- `elem.attrib`. -/
def Element.attrib : Element → List (String × String)
  | .mk _ a _ _ _ => a

/-- `elem.text`. -/
def Element.text : Element → Option String
  | .mk _ _ t _ _ => t

/-- The child elements of an element. -/
def Element.children : Element → ElementList
  | .mk _ _ _ cs _ => cs

/-- `elem.tail`. -/
def Element.tail : Element → Option String
  | .mk _ _ _ _ tl => tl

/-- The `html5lib` XHTML namespace wrapped in braces, as it appears in
`elem.tag` (e.g. the tag of a `<p>` element is `ns ++ "p"`). -/
def ns : String := "\x7bhttp://www.w3.org/1999/xhtml\x7d"

mutual
/-- `elem.itertext()` of `xml.etree`: the element's text, then
recursively each child's itertext followed by that child's tail. -/
def itertext : Element → List String
  | .mk _ _ t cs _ =>
    (match t with | some s => [s] | none => []) ++ itertextList cs

/-- Worker of `itertext` over a child list. -/
def itertextList : ElementList → List String
  | .nil => []
  | .cons c rest =>
    itertext c ++ (match c.tail with | some s => [s] | none => []) ++ itertextList rest
end

/-- `document.find(".//tag")` of `xml.etree`: first element with the
given tag in document order among the descendants of the node whose
child list is given. -/
def findDesc (tag : String) : ElementList → Option Element
  | .nil => none
  | .cons (.mk ctag cattrib ctext cchildren ctail) rest =>
    if ctag = tag then some (.mk ctag cattrib ctext cchildren ctail)
    else
      match findDesc tag cchildren with
      | some r => some r
      | none => findDesc tag rest

/-- Python truthiness of an `xml.etree` element: an element with no
children is falsy (`len(elem) == 0`). -/
def elemTruthy (e : Element) : Bool :=
  match e.children with
  | .nil => false
  | .cons _ _ => true

/-- Python `x or y` where `x` is an optional element: `y` unless `x` is
a truthy element. -/
def orElem (x y : Option Element) : Option Element :=
  match x with
  | some e => if elemTruthy e then some e else y
  | none => y

/-! ### HTML → Markdown converter (html_fetcher.py, lines 252-410) -/

/-- `should_skip_element` (html_fetcher.py lines 271-289): skip the six
non-content tags, and any element none of whose text fragments strips
to a non-empty string. -/
def should_skip_element (e : Element) : Bool :=
  let tag_str := e.tag
  if tag_str = ns ++ "script" ∨ tag_str = ns ++ "style" ∨ tag_str = ns ++ "nav"
      ∨ tag_str = ns ++ "footer" ∨ tag_str = ns ++ "header" ∨ tag_str = ns ++ "aside" then
    true
  else if !(itertext e).any (fun t => pyStrip t != "") then
    true
  else
    false

/-- `get_heading_level` (html_fetcher.py lines 291-303): `0` unless the
tag ends in `}h1` … `}h6`, else the digit value of its last character. -/
def get_heading_level (tag : String) : Nat :=
  if ¬ pyEndsWith tag "\x7dh1" ∧ ¬ pyEndsWith tag "\x7dh2" ∧ ¬ pyEndsWith tag "\x7dh3"
      ∧ ¬ pyEndsWith tag "\x7dh4" ∧ ¬ pyEndsWith tag "\x7dh5" ∧ ¬ pyEndsWith tag "\x7dh6" then
    0
  else
    (tag.data.getLastD '0').toNat - '0'.toNat

/-- The `for attr, value in elem.attrib.items()` loop of the link branch
(html_fetcher.py lines 328-332): first attribute value whose key ends in
`href`. -/
def findHref : List (String × String) → Option String
  | [] => none
  | (k, v) :: rest => if pyEndsWith k "href" then some v else findHref rest

/-- Mutable state of the converter walk: the emitted lines (`result`)
and the seen-text set (`seen_texts`, as a membership list). -/
structure WalkState where
  result : List String
  seen : List String

/-- The text-handling section of `process_element` (html_fetcher.py
lines 311-346), returning the updated state and whether the `return`
statement of the link branch fired (which skips child and tail
processing).  Note the source's emphasis branch rebinds `text` to its
decorated form *before* `seen_texts.add(text)`, so the seen-set records
`**text**` / `*text*` rather than the raw trimmed text. -/
def processText (e : Element) (depth : Nat) (st : WalkState) : WalkState × Bool :=
  match e.text with
  | none => (st, false)
  | some raw =>
    let text := pyStrip raw
    if text = "" ∨ text ∈ st.seen then (st, false)
    else
      let tag_str := e.tag
      let heading_level := get_heading_level tag_str
      let pfx :=
        if heading_level > 0 then pyRepeat "#" heading_level ++ " "
        else if pyEndsWith tag_str "\x7dli" then "* "
        else ""
      if tag_str = ns ++ "a" then
        match findHref e.attrib with
        | some href =>
          if href ≠ "" ∧ ¬ (pyStartsWith href "#" ∨ pyStartsWith href "javascript:"
              ∨ pyStartsWith href "mailto:") then
            ({ result := st.result ++ [pyRepeat "  " depth ++ pfx ++ "[" ++ text ++ "](" ++ href ++ ")"],
               seen := text :: st.seen }, true)
          else
            ({ result := st.result ++ [pyRepeat "  " depth ++ pfx ++ text],
               seen := text :: st.seen }, false)
        | none =>
          ({ result := st.result ++ [pyRepeat "  " depth ++ pfx ++ text],
             seen := text :: st.seen }, false)
      else
        let text2 :=
          if pyEndsWith tag_str "\x7dstrong" ∨ pyEndsWith tag_str "\x7db" then
            "**" ++ text ++ "**"
          else if pyEndsWith tag_str "\x7dem" ∨ pyEndsWith tag_str "\x7di" then
            "*" ++ text ++ "*"
          else text
        ({ result := st.result ++ [pyRepeat "  " depth ++ pfx ++ text2],
           seen := text2 :: st.seen }, false)

/-- The tail-handling section of `process_element` (html_fetcher.py
lines 353-357). -/
def processTail (e : Element) (depth : Nat) (st : WalkState) : WalkState :=
  match e.tail with
  | none => st
  | some raw =>
    let tail := pyStrip raw
    if tail ≠ "" ∧ tail ∉ st.seen then
      { result := st.result ++ [pyRepeat "  " depth ++ tail], seen := tail :: st.seen }
    else st

mutual
/-- `process_element` (html_fetcher.py lines 305-357): skip check, text
emission, recursive child processing at `depth + 1`, tail emission. -/
def process_element : Element → Nat → WalkState → WalkState
  | .mk tag attrib text children tail, depth, st =>
    if should_skip_element (.mk tag attrib text children tail) then st
    else
      match processText (.mk tag attrib text children tail) depth st with
      | (st1, true) => st1
      | (st1, false) =>
        processTail (.mk tag attrib text children tail) depth
          (process_children children depth st1)

/-- The `for child in elem` loop of `process_element`: each child is
processed at `depth + 1` of the given parent depth. -/
def process_children : ElementList → Nat → WalkState → WalkState
  | .nil, _, st => st
  | .cons c rest, depth, st => process_children rest depth (process_element c (depth + 1) st)
end

/-- The `skip_patterns` set of `html_to_markdown` (html_fetcher.py lines
376-393), in source order. -/
def skip_patterns : List String :=
  ["var ", "function()", ".js", ".css", "google-analytics", "disqus", "\x7b", "\x7d",
   "undefined", "null", "NaN", "cookie", "privacy policy", "terms of service",
   "all rights reserved", "copyright ©"]

/-- The successful path of `html_to_markdown` (html_fetcher.py lines
267-406) on a parsed document tree: locate the main content (`main` or
`article` or `body`, with Python element truthiness in the `or` chain,
falling back to the whole document), walk it, drop lines containing a
skip pattern (note the source lowercases the line but not the pattern),
join, drop blank lines and collapse triple newlines. -/
def convertDocument (document : Element) : String :=
  let main_content :=
    orElem (orElem (findDesc (ns ++ "main") document.children)
                   (findDesc (ns ++ "article") document.children))
           (findDesc (ns ++ "body") document.children)
  let st :=
    match main_content with
    | some m => process_element m 0 ⟨[], []⟩
    | none => process_element document 0 ⟨[], []⟩
  let filtered_result :=
    st.result.filter (fun line => !(skip_patterns.any (fun pat => pyContains (pyLower line) pat)))
  let markdown := String.intercalate "\n" filtered_result
  let markdown1 :=
    String.intercalate "\n" ((pySplit markdown "\n").filter (fun line => pyStrip line != ""))
  pyReplace markdown1 "\n\n\n" "\n\n"

/-- Input of `html_to_markdown`: the argument and the outcome of
`html5lib.parse` on it.  `noneIn`/`emptyIn` are the falsy arguments
rejected before the `try:` block; `parseRaised` is any exception raised
by the parser or the walk's library calls inside the `try:`. -/
inductive HtmlInput where
  | noneIn
  | emptyIn
  | parsed (document : Element)
  | parseRaised (msg : String)

/-- `html_to_markdown` up to its `except` clause (html_fetcher.py lines
263-406): falsy input returns `None` before the `try:`; a raising parse
propagates to the handler; a parsed document is converted. -/
def html_to_markdown_body : HtmlInput → Except PyExn (Option String)
  | .noneIn => .ok none
  | .emptyIn => .ok none
  | .parseRaised msg => .error (.otherError msg)
  | .parsed document => .ok (some (convertDocument document))

/-- `html_to_markdown` (html_fetcher.py lines 252-410): the catch-all
`except Exception` logs and returns `None`. -/
def html_to_markdown (i : HtmlInput) : Option String :=
  match html_to_markdown_body i with
  | .ok content => content
  | .error _ => none

/-! ### Link sanitizer (html_fetcher.py, lines 169-190)

`sanitize_markdown_links` applies two `re.sub` passes:
`\[([^\]]+)\]\([^)]+\)` → the captured text, then `https?://\S+` → `""`.
Each pass is embedded as the scan Python's `re.sub` performs: try to
match at the current position; on a match emit the replacement and
resume after the match, otherwise keep one character and move on. -/

/-- Anchored match of `\[([^\]]+)\]\([^)]+\)`: returns the captured
link text and the remainder after the match.  The greedy classes
`[^\]]+` / `[^)]+` are exactly `takeWhile` up to the closing
delimiter. -/
def matchLinkAt (l : List Char) : Option (List Char × List Char) :=
  match l with
  | '[' :: r =>
    let txt := r.takeWhile (fun c => c ≠ ']')
    if txt.isEmpty then none
    else
      match r.drop txt.length with
      | ']' :: '(' :: r2 =>
        let urlPart := r2.takeWhile (fun c => c ≠ ')')
        if urlPart.isEmpty then none
        else
          match r2.drop urlPart.length with
          | ')' :: rest => some (txt, rest)
          | _ => none
      | _ => none
  | _ => none

/-- The scan of `re.sub(r"\[([^\]]+)\]\([^)]+\)", r"\1", markdown)`;
fuel bounds the recursion by the input length (every step consumes at
least one character). -/
def replaceLinksAux : Nat → List Char → List Char
  | 0, l => l
  | _ + 1, [] => []
  | fuel + 1, c :: cs =>
    match matchLinkAt (c :: cs) with
    | some (txt, rest) => txt ++ replaceLinksAux fuel rest
    | none => c :: replaceLinksAux fuel cs

/-- Anchored match of `https?://\S+` (greedy optional `s`, then at least
one non-whitespace character): returns the remainder after the match. -/
def matchUrlAt (l : List Char) : Option (List Char) :=
  if "https://".data.isPrefixOf l then
    let r := l.drop 8
    let tok := r.takeWhile (fun c => !c.isWhitespace)
    if tok.isEmpty then none else some (r.drop tok.length)
  else if "http://".data.isPrefixOf l then
    let r := l.drop 7
    let tok := r.takeWhile (fun c => !c.isWhitespace)
    if tok.isEmpty then none else some (r.drop tok.length)
  else none

/-- The scan of `re.sub(r"https?://\S+", "", sanitized)`; same fuel
discipline as `replaceLinksAux`. -/
def removeUrlsAux : Nat → List Char → List Char
  | 0, l => l
  | _ + 1, [] => []
  | fuel + 1, c :: cs =>
    match matchUrlAt (c :: cs) with
    | some rest => removeUrlsAux fuel rest
    | none => c :: removeUrlsAux fuel cs

/-- `sanitize_markdown_links` (html_fetcher.py lines 169-190): replace
Markdown links by their text, then delete bare URLs.  (The `if markdown
is None` guard of the source is outside the embedded type: every caller
in html_fetcher.py passes a string.) -/
def sanitize_markdown_links (markdown : String) : String :=
  let sanitized : List Char := replaceLinksAux markdown.data.length markdown.data
  ⟨removeUrlsAux sanitized.length sanitized⟩

/-- A string contains a match of the link pattern
`\[([^\]]+)\]\([^)]+\)` at some position (the claim's "[text](url)
Markdown link construct"). -/
def hasLinkAux : Nat → List Char → Bool
  | 0, _ => false
  | _ + 1, [] => false
  | fuel + 1, c :: cs =>
    match matchLinkAt (c :: cs) with
    | some _ => true
    | none => hasLinkAux fuel cs

/-- A string contains a `[text](url)` Markdown link construct. -/
def hasLinkConstruct (s : String) : Bool :=
  hasLinkAux s.data.length s.data

/-! ### Reddit JSON → Markdown (reddit/json_parser.py) -/

/-- Lookup of a JSON value in an object field list, with the size bound
needed for termination of the comment-tree recursion. -/
theorem lookupField_sizeOf {fs : List (String × J)} {k : String} {v : J}
    (h : lookupField fs k = some v) : sizeOf v < sizeOf fs := by
  induction fs with
  | nil => simp [lookupField] at h
  | cons p rest ih =>
    obtain ⟨pk, pv⟩ := p
    by_cases hk : pk = k
    · simp [lookupField, hk] at h
      subst h
      simp
      omega
    · simp [lookupField, hk] at h
      have := ih h
      simp
      omega

/-- `jGet` returns a structurally smaller value. -/
theorem jGet_sizeOf {d : J} {k : String} {v : J} (h : jGet d k = some v) :
    sizeOf v < sizeOf d := by
  cases d <;> simp [jGet] at h
  case obj fields =>
    have := lookupField_sizeOf h
    simp
    omega

/-- A member of a JSON array list is structurally smaller than the
list. -/
theorem memJ_sizeOf {l : List J} {c : J} (h : c ∈ l) : sizeOf c < sizeOf l := by
  induction l with
  | nil => simp at h
  | cons a rest ih =>
    cases h with
    | head =>
      simp
      omega
    | tail _ h' =>
      have := ih h'
      simp
      omega

/-- The check `data.get("author") in ["[deleted]", "[removed]"]`
(json_parser.py line 164): true exactly when the `author` field is one
of the two marker strings (an absent field is Python `None`, which is
not in the list; a non-string field is unequal to both strings). -/
def isDeletedAuthor (data : J) : Bool :=
  match jGet data "author" with
  | some (.str a) => a = "[deleted]" || a = "[removed]"
  | _ => false

/-- The check `child.get("kind") == "t1"` / `post_item.get("kind") ==
"t3"`: the `kind` field as a string, `""` when absent or non-string
(neither equals a kind tag). -/
def jGetKind (c : J) : String :=
  match jGet c "kind" with
  | some (.str k) => k
  | _ => ""

/-- `process_comment_tree` (json_parser.py lines 155-206), parameterized
by `fmtTs`, the embedding of `format_timestamp` (datetime library
formatting).  Deleted/removed comments with whitespace-only bodies are
dropped before any rendering; otherwise a depth-dependent header, the
indented or quote-prefixed body lines, and recursively the `t1` children
of `replies.data.children`.  (A non-list `children` value, over which
Python's `for` would raise into the caller's catch-all, contributes no
lines; no theorem exercises that shape.) -/
def process_comment_tree (fmtTs : J → String) (comment_data : J) (depth : Nat) : List String :=
  match hdata : jGet comment_data "data" with
  | none => []
  | some data =>
    if isDeletedAuthor data && (pyStrip (jGetStrD data "body" "") == "") then []
    else
      let pfx := pyRepeat "  " depth
      let quotePfx := if depth > 0 then pyRepeat "> " (depth + 1) else ""
      let author := jShow (jGetD data "author" (.str "[deleted]"))
      let score := jShow (jGetD data "score" (.num 0))
      let timestamp := fmtTs (jGetD data "created_utc" (.num 0))
      let headerLines :=
        if depth = 0 then
          ["## Comment by u/" ++ author, "**Score: " ++ score ++ " | Posted: " ++ timestamp ++ "**\n"]
        else
          [quotePfx ++ "**u/" ++ author ++ " | Score: " ++ score ++ "**"]
      let body := pyStrip (jGetStrD data "body" "")
      let bodyLines :=
        if body ≠ "" then
          (if depth = 0 then (pySplit body "\n").map (fun line => pfx ++ line)
           else (pySplit body "\n").map (fun line => quotePfx ++ line)) ++ [""]
        else []
      let replyLines :=
        match hreplies : jGet data "replies" with
        | some replies =>
          match hrdata : jGet replies "data" with
          | some rdata =>
            match hchildren : jGet rdata "children" with
            | some (.arr children) =>
              (children.attach.map (fun ⟨child, hchild⟩ =>
                if jGetKind child = "t1" then process_comment_tree fmtTs child (depth + 1)
                else [])).flatten
            | some _ => []
            | none => []
          | none => []
        | none => []
      headerLines ++ bodyLines ++ replyLines
termination_by sizeOf comment_data
decreasing_by
  have h1 := jGet_sizeOf hdata
  have h2 := jGet_sizeOf hreplies
  have h3 := jGet_sizeOf hrdata
  have h4 := jGet_sizeOf hchildren
  have h5 := memJ_sizeOf hchild
  have h6 : sizeOf children < sizeOf (J.arr children) := by simp
  omega

/-- The post extraction of `convert_reddit_json_to_markdown`
(json_parser.py lines 235-239): the first child of `json_data[0].data`,
if it is a `t3` item carrying a `data` object. -/
def getPostData (item0 : J) : Option J :=
  match jGet item0 "data" with
  | some d =>
    match jGet d "children" with
    | some (.arr (post_item :: _)) =>
      if jGetKind post_item = "t3" then jGet post_item "data" else none
    | _ => none
  | none => none

/-- The body of `convert_reddit_json_to_markdown` (json_parser.py lines
230-278) on parsed JSON, parameterized by the embeddings of
`format_timestamp` (`fmtTs`) and of the `{:.0%}` float formatting
(`fmtPct`).  Only a two-element listing produces lines; when no lines
were produced the explicit fallback string is returned. -/
def convert_body (fmtTs fmtPct : J → String) (json_data : J) : String :=
  let markdown_lines :=
    match json_data with
    | .arr (item0 :: item1 :: _) =>
      let postLines :=
        match getPostData item0 with
        | some post_data =>
          let title := jShow (jGetD post_data "title" (.str ""))
          let author := jShow (jGetD post_data "author" (.str "[deleted]"))
          let score := jShow (jGetD post_data "score" (.num 0))
          let upvote_ratio := fmtPct (jGetD post_data "upvote_ratio" (.num 0))
          let num_comments := jShow (jGetD post_data "num_comments" (.num 0))
          let created := fmtTs (jGetD post_data "created_utc" (.num 0))
          ["# " ++ title,
           "**Posted by u/" ++ author ++ " | Score: " ++ score ++ " | Upvote Ratio: "
             ++ upvote_ratio ++ " | Comments: " ++ num_comments ++ " | Posted: "
             ++ created ++ "**\n"]
        | none => []
      let commentLines :=
        match jGet item1 "data" with
        | some d1 =>
          match jGet d1 "children" with
          | some (.arr comments) =>
            (if !comments.isEmpty then ["---", "# Comments\n"] else []) ++
              (comments.map (fun comment =>
                if jGetKind comment = "t1" then process_comment_tree fmtTs comment 0
                else [])).flatten
          | _ => []
        | none => []
      postLines ++ commentLines
    | _ => []
  if markdown_lines.isEmpty then "No Reddit content could be extracted"
  else String.intercalate "\n" markdown_lines

/-- Input of `convert_reddit_json_to_markdown`: the outcome of
`json.loads` on the argument (`parseFail` for a `JSONDecodeError`), or
`bodyRaised` for any other exception raised by library calls inside the
`try:` block. -/
inductive RedditIn where
  | parseFail (msg : String)
  | bodyRaised (msg : String)
  | parsedOk (j : J)

/-- `convert_reddit_json_to_markdown` (json_parser.py lines 209-285):
the `except json.JSONDecodeError` and `except Exception` clauses return
explicit error strings; parsed JSON goes through the body. -/
def convert_reddit_json_to_markdown (fmtTs fmtPct : J → String) : RedditIn → String
  | .parseFail msg => "Error parsing Reddit JSON: " ++ msg
  | .bodyRaised msg => "Error processing Reddit content: " ++ msg
  | .parsedOk j => convert_body fmtTs fmtPct j

/-- The shape guard of the converter body (json_parser.py line 233):
a JSON array with at least two items. -/
def isTwoItemListing : J → Bool
  | .arr (_ :: _ :: _) => true
  | _ => false

/-! ### TTL cache (cache.py)

The cache state is the in-memory `url → CacheEntry` map; the settings
(`ENABLE_CACHE`, `CACHE_TTL`) and the clock (`time.time()`) are
parameters.  `_save_cache` is a file side effect, reported as a Bool
("the map was persisted") in the result. -/

/-- Association-list lookup with string keys (Python `dict.get`). -/
def assocGet {β : Type} : List (String × β) → String → Option β
  | [], _ => none
  | (k, v) :: rest, key => if k = key then some v else assocGet rest key

/-- Association-list update with string keys (Python `d[k] = v`):
overwrite in place when the key is present (keys are unique, so the
first occurrence is the only one), else append at the end — exactly the
insertion-order semantics of a Python dict assignment. -/
def assocSet {β : Type} : List (String × β) → String → β → List (String × β)
  | [], key, v => [(key, v)]
  | (k, w) :: rest, key, v =>
    if k = key then (key, v) :: rest else (k, w) :: assocSet rest key v

/-- Association-list deletion (Python `del d[k]`). -/
def assocDelete {β : Type} (m : List (String × β)) (key : String) : List (String × β) :=
  m.filter (fun p => p.1 ≠ key)

/-- `CacheEntry` (cache.py lines 14-19): payload plus timestamp.  The
payload type is a parameter (`dict[str, Any]` in the source); the
timestamp is in seconds (`time.time()`, an `Int` here). -/
structure CacheEntry (α : Type) where
  data : α
  timestamp : Int

/-- The settings consulted by the cache (`ENABLE_CACHE`, `CACHE_TTL`
from the configuration). -/
structure CacheSettings where
  ENABLE_CACHE : Bool
  CACHE_TTL : Int

/-- `ScrapeCache.get` (cache.py lines 52-70) at clock value `now`:
disabled caching always misses; a missing entry misses; an entry older
than the TTL is deleted, the map is persisted (`Bool` = `true`) and the
call misses; otherwise the entry's payload is returned.  Result:
(returned payload, new in-memory map, whether `_save_cache` ran). -/
def cache_get {α : Type} (settings : CacheSettings) (now : Int)
    (cache : List (String × CacheEntry α)) (url : String) :
    Option α × List (String × CacheEntry α) × Bool :=
  if !settings.ENABLE_CACHE then (none, cache, false)
  else
    match assocGet cache url with
    | none => (none, cache, false)
    | some entry =>
      if now - entry.timestamp > settings.CACHE_TTL then
        (none, assocDelete cache url, true)
      else
        (some entry.data, cache, false)

/-- `ScrapeCache.set` (cache.py lines 72-79) at clock value `now`:
disabled caching is a no-op; otherwise store the entry with the current
timestamp and persist.  Result: (new in-memory map, whether
`_save_cache` ran). -/
def cache_set {α : Type} (settings : CacheSettings) (now : Int)
    (cache : List (String × CacheEntry α)) (url : String) (data : α) :
    List (String × CacheEntry α) × Bool :=
  if !settings.ENABLE_CACHE then (cache, false)
  else (assocSet cache url ⟨data, now⟩, true)

/-! ### Batch orchestrator (html_fetcher.py, lines 450-515)

`fetch_batch` partitions the URLs into windows of `max_concurrent`,
awaits one task per URL (`asyncio.gather(..., return_exceptions=True)`),
and folds the results into a dict.  The per-URL task — transcript fetch
for YouTube URLs, universal fetch of the rewritten JSON URL for Reddit
URLs, the dispatcher `fetch` otherwise — is abstracted by `dispatch`,
giving the awaited outcome for each URL; `rparse` abstracts `json.loads`
inside the Reddit post-processing branch. -/

/-- One slot of the `asyncio.gather(..., return_exceptions=True)`
result: either the exception the task raised, or its return value. -/
inductive GatherOutcome where
  | raised (e : PyExn)
  | value (v : Option String)

/-- The result-mapping loop body of `fetch_batch` (html_fetcher.py lines
495-513) for one URL: an exception is recorded as `None`; a Reddit URL
whose task returned a string goes through the Reddit converter and the
link sanitizer (both total, so the `except` clause of that branch is
unreachable); otherwise a string result is sanitized when the output
format is MARKDOWN, and any result is stored as-is. -/
def handle_batch_result (fmtTs fmtPct : J → String) (rparse : String → RedditIn)
    (output_format : OutputFormat) (url : String) (r : GatherOutcome) : Option String :=
  match r with
  | .raised _ => none
  | .value v =>
    if pyContains url "reddit.com" ∧ v.isSome then
      match v with
      | some s => some (sanitize_markdown_links
          (convert_reddit_json_to_markdown fmtTs fmtPct (rparse s)))
      | none => none
    else
      match v with
      | some s =>
        if output_format = OutputFormat.markdown then some (sanitize_markdown_links s)
        else some s
      | none => none

/-- The window partition `urls[i : i + max_concurrent]` of the loop
`for i in range(0, len(urls), max_concurrent)`; fuel bounds the
recursion by the input length (each window is non-empty for
`n ≥ 1`). -/
def windowsAux {γ : Type} (n : Nat) : Nat → List γ → List (List γ)
  | 0, _ => []
  | _ + 1, [] => []
  | fuel + 1, x :: xs => ((x :: xs).take n) :: windowsAux n fuel ((x :: xs).drop n)

/-- The list of concurrency windows of `fetch_batch`. -/
def windows {γ : Type} (n : Nat) (l : List γ) : List (List γ) :=
  windowsAux n l.length l

/-- `fetch_batch` (html_fetcher.py lines 450-515): fold the per-window
gather results into the `url → content` dict (later duplicates
overwrite earlier ones, dict semantics). -/
def fetch_batch (fmtTs fmtPct : J → String) (rparse : String → RedditIn)
    (urls : List String) (output_format : OutputFormat)
    (dispatch : String → GatherOutcome) (max_concurrent : Nat) :
    List (String × Option String) :=
  (windows max_concurrent urls).foldl
    (fun results window =>
      window.foldl
        (fun results url =>
          assocSet results url (handle_batch_result fmtTs fmtPct rparse output_format url (dispatch url)))
        results)
    []

/-- Batch for the failure-isolation scenario of C5: four URLs whose
tasks succeed and one whose task always raises. -/
def exBatchUrls : List String :=
  ["https://a.example.com", "https://b.example.com", "https://bad.example.com",
   "https://c.example.com", "https://d.example.com"]

/-- Dispatch outcomes for `exBatchUrls`: the bad URL's task raises, the
others return content. -/
def exBatchDispatch (url : String) : GatherOutcome :=
  if url = "https://bad.example.com" then .raised (.otherError "boom")
  else .value (some "ok content")

/-- Dispatch outcomes for the C10 scenario: one task returns Markdown
with nested link syntax, the other a bare scheme token followed by a
space. -/
def exSanitizerDispatch (url : String) : GatherOutcome :=
  if url = "https://n.example.com" then .value (some "[[a](b)](c)")
  else .value (some "x http:// y")

/-! ## Theorems -/

/-! ### Helper lemmas on the string primitives -/

/-- A concatenation ends with its second operand. -/
theorem pyEndsWith_append_self (s t : String) : pyEndsWith (s ++ t) t = true := by
  simp [pyEndsWith, String.data_append]

/-- A string ending in `".json"` does not end in `"/"`. -/
theorem endsWith_json_not_slash {url : String} (h : pyEndsWith url ".json" = true) :
    pyEndsWith url "/" = false := by
  simp only [pyEndsWith, List.isSuffixOf_iff_suffix] at h
  rw [Bool.eq_false_iff]
  intro hs
  simp only [pyEndsWith, List.isSuffixOf_iff_suffix] at hs
  obtain ⟨t, ht⟩ := h
  obtain ⟨t2, ht2⟩ := hs
  have h1 : url.data.getLast? = some 'n' := by
    rw [← ht]
    have hsplit : t ++ ".json".data = (t ++ ['.', 'j', 's', 'o']) ++ ['n'] := by
      simp
    rw [hsplit, List.getLast?_concat]
  have h2 : url.data.getLast? = some '/' := by
    rw [← ht2]
    have hsplit : t2 ++ "/".data = t2 ++ ['/'] := by simp
    rw [hsplit, List.getLast?_concat]
  rw [h1] at h2
  exact absurd (Option.some.inj h2) (by decide)

/-- The Reddit rewrite leaves a `.json`-ending URL unchanged. -/
theorem convert_reddit_url_fixes_json {url : String} (h : pyEndsWith url ".json" = true) :
    convert_reddit_url_to_json url = url := by
  unfold convert_reddit_url_to_json
  rw [endsWith_json_not_slash h]
  simp [h]

/-- The Reddit rewrite always produces a `.json`-ending URL. -/
theorem convert_reddit_url_endsWith_json (url : String) :
    pyEndsWith (convert_reddit_url_to_json url) ".json" = true := by
  unfold convert_reddit_url_to_json
  by_cases h0 : pyEndsWith url "/"
  all_goals
    simp only [h0, if_true, if_false, Bool.false_eq_true, ite_false, ite_true]
  all_goals
    split
    next h => exact h
    next h => exact pyEndsWith_append_self _ _

/-! ### Claim theorems -/

/-- Claim C8: the Reddit URL rewrite maps
`https://reddit.com/r/test/comments/1/` to
`https://reddit.com/r/test/comments/1.json`, rewriting that result again
yields the same string, every URL already ending in `.json` is left
unchanged (no second `.json`), and the rewrite is idempotent on all
URLs. -/
theorem C8_reddit_url_rewrite :
    convert_reddit_url_to_json "https://reddit.com/r/test/comments/1/"
      = "https://reddit.com/r/test/comments/1.json" ∧
    convert_reddit_url_to_json "https://reddit.com/r/test/comments/1.json"
      = "https://reddit.com/r/test/comments/1.json" ∧
    (∀ url : String, pyEndsWith url ".json" = true → convert_reddit_url_to_json url = url) ∧
    (∀ url : String, convert_reddit_url_to_json (convert_reddit_url_to_json url)
      = convert_reddit_url_to_json url) :=
  ⟨by decide, by decide, fun _ h => convert_reddit_url_fixes_json h,
   fun url => convert_reddit_url_fixes_json (convert_reddit_url_endsWith_json url)⟩

/-- Witness for C8: the hypothesis of the third conjunct holds of
`"a.json"` and the rewrite leaves it unchanged. -/
theorem C8_witness :
    pyEndsWith "a.json" ".json" = true ∧ convert_reddit_url_to_json "a.json" = "a.json" :=
  ⟨by decide, C8_reddit_url_rewrite.2.2.1 "a.json" (by decide)⟩

/-- Claim C9: extracting the video id from
`https://www.youtube.com/watch?v=abc123&t=5` yields `abc123` (query
value `v` truncated at the next `&`), from `https://youtu.be/xyz789`
yields `xyz789` (last path segment), and a URL containing neither
pattern yields no video id. -/
theorem C9_youtube_classification :
    extract_youtube_id "https://www.youtube.com/watch?v=abc123&t=5" = some "abc123" ∧
    extract_youtube_id "https://youtu.be/xyz789" = some "xyz789" ∧
    (∀ url : String, pyContains url "youtube.com/watch?v=" = false →
      pyContains url "youtu.be/" = false → extract_youtube_id url = none) := by
  refine ⟨by decide, by decide, ?_⟩
  intro url h1 h2
  simp [extract_youtube_id, h1, h2]

/-- Witness for C9: `https://example.com/page` matches neither pattern
and yields no video id. -/
theorem C9_witness : extract_youtube_id "https://example.com/page" = none :=
  C9_youtube_classification.2.2 "https://example.com/page" (by decide) (by decide)

/-- Claim C4: the HTML→Markdown converter is total — null or empty
input yields null, an input on which the parser or the walk raises
yields null, and every exception of the body is converted to null
rather than propagated. -/
theorem C4_converter_total :
    html_to_markdown HtmlInput.noneIn = none ∧
    html_to_markdown HtmlInput.emptyIn = none ∧
    (∀ msg, html_to_markdown (HtmlInput.parseRaised msg) = none) ∧
    (∀ i e, html_to_markdown_body i = Except.error e → html_to_markdown i = none) := by
  refine ⟨rfl, rfl, fun _ => rfl, ?_⟩
  intro i e h
  unfold html_to_markdown
  rw [h]

/-- Witness for C4: the fourth conjunct applied to a raising parse. -/
theorem C4_witness :
    html_to_markdown_body (HtmlInput.parseRaised "boom")
      = Except.error (PyExn.otherError "boom") ∧
    html_to_markdown (HtmlInput.parseRaised "boom") = none :=
  ⟨rfl, C4_converter_total.2.2.2 (HtmlInput.parseRaised "boom") (PyExn.otherError "boom") rfl⟩

/-- Counterexample to claim C1 as stated: the universal/remote-render
backend does not convert internal failures to null — on a response
without a `results` entry it raises `ValueError` past its boundary. -/
theorem C1_counterexample :
    fetch_universal (Except.ok (J.obj []))
      = Except.error (PyExn.valueError "No results found in response") := rfl

/-- Claim C1 (amended): the direct, spider and transcript backends
convert every exception of their bodies to null and never raise; the
universal backend instead propagates the errors of its raw API call
rather than converting them to null. -/
theorem C1_backend_error_handling :
    (∀ o e, fetch_direct_body o = Except.error e → fetch_direct o = none) ∧
    (∀ key o e, fetch_with_spider_body key o = Except.error e → fetch_with_spider key o = none) ∧
    (∀ o e, aget_transcript_body o = Except.error e → aget_transcript o = none) ∧
    (∀ e, fetch_universal (Except.error e) = Except.error e) := by
  refine ⟨?_, ?_, ?_, fun e => rfl⟩
  · intro o e h
    unfold fetch_direct
    rw [h]
    cases e <;> rfl
  · intro key o e h
    unfold fetch_with_spider
    rw [h]
    cases e <;> rfl
  · intro o e h
    unfold aget_transcript
    rw [h]

/-- Witness for C1: the first conjunct applied to a transport error. -/
theorem C1_witness :
    fetch_direct_body DirectOutcome.transportError = Except.error PyExn.httpError ∧
    fetch_direct DirectOutcome.transportError = none :=
  ⟨rfl, C1_backend_error_handling.1 DirectOutcome.transportError PyExn.httpError rfl⟩

/-- Claim C2 fails on the code: a document whose body holds two
`<strong>` elements with identical trimmed text `x` produces the
emission `  **x**` twice — the emphasis branch records the decorated
text `**x**` in the seen-set but checks the raw text `x`, so the
duplicate is not suppressed. -/
theorem C2_duplicate_emphasis_text :
    html_to_markdown (HtmlInput.parsed (.mk (ns ++ "html") [] none
        (.cons (.mk (ns ++ "body") [] none
          (.cons (.mk (ns ++ "strong") [] (some "x") .nil none)
            (.cons (.mk (ns ++ "strong") [] (some "x") .nil none) .nil)) none) .nil) none))
      = some "  **x**\n  **x**" ∧
    (pySplit "  **x**\n  **x**" "\n").count "  **x**" = 2 := by
  exact ⟨by decide, by decide⟩

/-- Claim C3 fails on the code: a document whose body text is
`NaN results` survives the noise filter even though `NaN` is a
configured pattern that occurs in the line case-insensitively — the
filter lowercases the line but compares it with the unlowered pattern
`NaN`, which can never occur in a lowercased line. -/
theorem C3_nan_not_filtered :
    html_to_markdown (HtmlInput.parsed (.mk (ns ++ "html") [] none
        (.cons (.mk (ns ++ "body") [] (some "NaN results") .nil none) .nil) none))
      = some "NaN results" ∧
    "NaN" ∈ skip_patterns ∧
    pyContains (pyLower "NaN results") (pyLower "NaN") = true := by
  exact ⟨by decide, by decide, by decide⟩

/-- Claim C7: the Reddit converter never raises — a JSON parse failure
and any other internal exception are converted to explicit error
strings, any parsed value that is not the expected two-element listing
degrades to the explicit "no content extracted" string, and a
deleted/removed comment whose body strips to empty contributes no lines
to the output. -/
theorem C7_reddit_converter_robust :
    (∀ (fmtTs fmtPct : J → String) msg,
      convert_reddit_json_to_markdown fmtTs fmtPct (RedditIn.parseFail msg)
        = "Error parsing Reddit JSON: " ++ msg) ∧
    (∀ (fmtTs fmtPct : J → String) msg,
      convert_reddit_json_to_markdown fmtTs fmtPct (RedditIn.bodyRaised msg)
        = "Error processing Reddit content: " ++ msg) ∧
    (∀ (fmtTs fmtPct : J → String) j, isTwoItemListing j = false →
      convert_reddit_json_to_markdown fmtTs fmtPct (RedditIn.parsedOk j)
        = "No Reddit content could be extracted") ∧
    (∀ (fmtTs : J → String) (c data : J) (depth : Nat), jGet c "data" = some data →
      isDeletedAuthor data = true → pyStrip (jGetStrD data "body" "") = "" →
      process_comment_tree fmtTs c depth = []) := by
  refine ⟨fun _ _ _ => rfl, fun _ _ _ => rfl, ?_, ?_⟩
  · intro fmtTs fmtPct j h
    cases j with
    | arr elems =>
      cases elems with
      | nil => rfl
      | cons a rest =>
        cases rest with
        | nil => rfl
        | cons b rest2 => simp [isTwoItemListing] at h
    | null => rfl
    | bool b => rfl
    | num n => rfl
    | str s => rfl
    | obj fields => rfl
  · intro fmtTs c data depth hdata hdel hbody
    unfold process_comment_tree
    split
    · rfl
    next data2 heq =>
      rw [hdata] at heq
      injection heq with heq
      subst heq
      simp [hdel, hbody]

/-- Witness for C7: the third conjunct at `J.null` and the fourth at a
concrete deleted comment with an empty body. -/
theorem C7_witness :
    convert_reddit_json_to_markdown (fun _ => "") (fun _ => "") (RedditIn.parsedOk J.null)
      = "No Reddit content could be extracted" ∧
    process_comment_tree (fun _ => "")
      (J.obj [("data", J.obj [("author", J.str "[deleted]"), ("body", J.str " ")])]) 0 = [] :=
  ⟨C7_reddit_converter_robust.2.2.1 (fun _ => "") (fun _ => "") J.null rfl,
   C7_reddit_converter_robust.2.2.2 (fun _ => "")
     (J.obj [("data", J.obj [("author", J.str "[deleted]"), ("body", J.str " ")])])
     (J.obj [("author", J.str "[deleted]"), ("body", J.str " ")]) 0 rfl (by decide) (by decide)⟩

/-! ### Helper lemmas on association lists -/

/-- `assocSet` makes the key map to the stored value. -/
theorem assocGet_assocSet_self {β : Type} (m : List (String × β)) (k : String) (v : β) :
    assocGet (assocSet m k v) k = some v := by
  induction m with
  | nil => simp [assocSet, assocGet]
  | cons p rest ih =>
    obtain ⟨pk, pv⟩ := p
    by_cases h : pk = k
    · subst h
      simp [assocSet, assocGet]
    · simp [assocSet, assocGet, h, ih]

/-- `assocSet` does not touch other keys. -/
theorem assocGet_assocSet_ne {β : Type} (m : List (String × β)) (k k' : String) (v : β)
    (h : k' ≠ k) : assocGet (assocSet m k v) k' = assocGet m k' := by
  have hne : ¬ k = k' := fun hh => h hh.symm
  induction m with
  | nil => simp [assocSet, assocGet, hne]
  | cons p rest ih =>
    obtain ⟨pk, pv⟩ := p
    by_cases hpk : pk = k
    · subst hpk
      simp [assocSet, assocGet, hne]
    · simp [assocSet, assocGet, hpk, ih]

/-- Deleting a key removes it. -/
theorem assocGet_assocDelete_self {β : Type} (m : List (String × β)) (k : String) :
    assocGet (assocDelete m k) k = none := by
  induction m with
  | nil => rfl
  | cons p rest ih =>
    obtain ⟨pk, pv⟩ := p
    by_cases hk : pk = k
    · simpa [assocDelete, hk] using ih
    · simp only [assocDelete, List.filter_cons] at ih ⊢
      simp [assocGet, hk]
      simpa [assocDelete] using ih

/-- Claim C6: with caching enabled, `set` immediately followed by `get`
returns the stored payload; a `get` that finds an entry older than the
TTL deletes it from the map, persists, and misses; a `get` on an absent
URL misses without touching the map; with caching disabled, `get`
always misses and `set` leaves the map unchanged. -/
theorem C6_ttl_cache :
    (∀ (α : Type) (settings : CacheSettings) (now : Int)
        (cache : List (String × CacheEntry α)) (url : String) (data : α),
      settings.ENABLE_CACHE = true → 0 ≤ settings.CACHE_TTL →
      cache_get settings now (cache_set settings now cache url data).1 url
        = (some data, (cache_set settings now cache url data).1, false)) ∧
    (∀ (α : Type) (settings : CacheSettings) (now : Int)
        (cache : List (String × CacheEntry α)) (url : String) (entry : CacheEntry α),
      settings.ENABLE_CACHE = true → assocGet cache url = some entry →
      now - entry.timestamp > settings.CACHE_TTL →
      cache_get settings now cache url = (none, assocDelete cache url, true) ∧
      assocGet (assocDelete cache url) url = none) ∧
    (∀ (α : Type) (settings : CacheSettings) (now : Int)
        (cache : List (String × CacheEntry α)) (url : String),
      settings.ENABLE_CACHE = true → assocGet cache url = none →
      cache_get settings now cache url = (none, cache, false)) ∧
    (∀ (α : Type) (settings : CacheSettings) (now : Int)
        (cache : List (String × CacheEntry α)) (url : String),
      settings.ENABLE_CACHE = false → cache_get settings now cache url = (none, cache, false)) ∧
    (∀ (α : Type) (settings : CacheSettings) (now : Int)
        (cache : List (String × CacheEntry α)) (url : String) (data : α),
      settings.ENABLE_CACHE = false → cache_set settings now cache url data = (cache, false)) := by
  refine ⟨?_, ?_, ?_, ?_, ?_⟩
  · intro α settings now cache url data hen httl
    have hage : ¬ (now - now > settings.CACHE_TTL) := by omega
    unfold cache_set cache_get
    simp only [hen, Bool.not_true, Bool.false_eq_true, if_false, assocGet_assocSet_self,
      if_neg hage]
  · intro α settings now cache url entry hen hget httl
    refine ⟨?_, assocGet_assocDelete_self cache url⟩
    unfold cache_get
    simp only [hen, Bool.not_true, Bool.false_eq_true, if_false, hget, if_pos httl]
  · intro α settings now cache url hen hget
    unfold cache_get
    simp only [hen, Bool.not_true, Bool.false_eq_true, if_false, hget]
  · intro α settings now cache url hen
    unfold cache_get
    simp [hen]
  · intro α settings now cache url data hen
    unfold cache_set
    simp [hen]

/-- Witness for C6: a concrete enabled round trip and a concrete
expired lookup. -/
theorem C6_witness :
    cache_get (CacheSettings.mk true 100) 0
        (cache_set (CacheSettings.mk true 100) 0 ([] : List (String × CacheEntry Nat)) "u" 5).1 "u"
      = (some 5, (cache_set (CacheSettings.mk true 100) 0
          ([] : List (String × CacheEntry Nat)) "u" 5).1, false) ∧
    cache_get (CacheSettings.mk true 100) 500 [("u", CacheEntry.mk (7 : Nat) 0)] "u"
      = (none, assocDelete [("u", CacheEntry.mk (7 : Nat) 0)] "u", true) :=
  ⟨C6_ttl_cache.1 Nat (CacheSettings.mk true 100) 0 [] "u" 5 rfl (by decide),
   (C6_ttl_cache.2.1 Nat (CacheSettings.mk true 100) 500 [("u", CacheEntry.mk (7 : Nat) 0)] "u"
     (CacheEntry.mk (7 : Nat) 0) rfl rfl (by decide)).1⟩

/-! ### Helper lemmas on the batch orchestrator -/

/-- For a positive window size the windows partition the input. -/
theorem windowsAux_flatten {γ : Type} (n : Nat) (hn : 1 ≤ n) :
    ∀ (fuel : Nat) (l : List γ), l.length ≤ fuel → (windowsAux n fuel l).flatten = l := by
  intro fuel
  induction fuel with
  | zero =>
    intro l hl
    cases l with
    | nil => rfl
    | cons x xs => simp at hl
  | succ f ih =>
    intro l hl
    cases l with
    | nil => rfl
    | cons x xs =>
      simp only [windowsAux, List.flatten_cons]
      rw [ih]
      · exact List.take_append_drop n (x :: xs)
      · rw [List.length_drop]
        simp only [List.length_cons] at hl ⊢
        omega

/-- Folding window-by-window equals folding over the flattened list. -/
theorem foldl_over_windows {γ δ : Type} (step : δ → γ → δ) :
    ∀ (ws : List (List γ)) (init : δ),
      ws.foldl (fun m w => w.foldl step m) init = ws.flatten.foldl step init := by
  intro ws
  induction ws with
  | nil => intro init; rfl
  | cons w rest ih =>
    intro init
    simp only [List.foldl_cons, List.flatten_cons, List.foldl_append, ih]

/-- For a positive window size, `fetch_batch` is the plain fold of the
per-URL results over the input list. -/
theorem fetch_batch_eq_foldl (fmtTs fmtPct : J → String) (rparse : String → RedditIn)
    (urls : List String) (fmt : OutputFormat) (dispatch : String → GatherOutcome)
    (n : Nat) (hn : 1 ≤ n) :
    fetch_batch fmtTs fmtPct rparse urls fmt dispatch n
      = urls.foldl (fun m url =>
          assocSet m url (handle_batch_result fmtTs fmtPct rparse fmt url (dispatch url))) [] := by
  unfold fetch_batch windows
  rw [foldl_over_windows, windowsAux_flatten n hn urls.length urls (le_refl _)]

/-- A binding for the per-URL value survives further folding (later
inserts either concern other keys or re-store the same value). -/
theorem assocGet_foldl_preserve {β : Type} (f : String → β) :
    ∀ (urls : List String) (m : List (String × β)) (u : String),
      assocGet m u = some (f u) →
      assocGet (urls.foldl (fun m url => assocSet m url (f url)) m) u = some (f u) := by
  intro urls
  induction urls with
  | nil => intro m u h; exact h
  | cons a rest ih =>
    intro m u h
    simp only [List.foldl_cons]
    apply ih
    by_cases hau : a = u
    · subst hau
      exact assocGet_assocSet_self m a (f a)
    · rw [assocGet_assocSet_ne m a u (f a) (fun hh => hau hh.symm)]
      exact h

/-- Every URL of the fold is bound to its per-URL value in the result. -/
theorem assocGet_foldl_mem {β : Type} (f : String → β) :
    ∀ (urls : List String) (m : List (String × β)) (u : String), u ∈ urls →
      assocGet (urls.foldl (fun m url => assocSet m url (f url)) m) u = some (f u) := by
  intro urls
  induction urls with
  | nil => intro m u h; simp at h
  | cons a rest ih =>
    intro m u h
    simp only [List.foldl_cons]
    rcases List.mem_cons.mp h with h | h
    · subst h
      exact assocGet_foldl_preserve f rest _ u (assocGet_assocSet_self m u (f u))
    · exact ih _ u h

/-- The keys after `assocSet`: unchanged when the key was present, else
the key is appended. -/
theorem assocSet_keys {β : Type} (m : List (String × β)) (k : String) (v : β) :
    (assocSet m k v).map Prod.fst
      = if k ∈ m.map Prod.fst then m.map Prod.fst else m.map Prod.fst ++ [k] := by
  induction m with
  | nil => simp [assocSet]
  | cons p rest ih =>
    obtain ⟨pk, pv⟩ := p
    by_cases hk : pk = k
    · subst hk
      simp [assocSet]
    · have hne : ¬ k = pk := fun hh => hk hh.symm
      by_cases hmem : k ∈ rest.map Prod.fst
      · simp [assocSet, hk, hne, hmem, ih]
      · simp [assocSet, hk, hne, hmem, ih]

/-- Key membership after `assocSet`. -/
theorem assocSet_mem_keys {β : Type} (m : List (String × β)) (k : String) (v : β) (u : String) :
    u ∈ (assocSet m k v).map Prod.fst ↔ u ∈ m.map Prod.fst ∨ u = k := by
  rw [assocSet_keys]
  by_cases h : k ∈ m.map Prod.fst
  · rw [if_pos h]
    constructor
    · exact Or.inl
    · rintro (hu | hu)
      · exact hu
      · exact hu ▸ h
  · rw [if_neg h]
    simp [List.mem_append]

/-- `assocSet` preserves distinctness of keys. -/
theorem assocSet_keys_nodup {β : Type} (m : List (String × β)) (k : String) (v : β)
    (h : (m.map Prod.fst).Nodup) : ((assocSet m k v).map Prod.fst).Nodup := by
  rw [assocSet_keys]
  by_cases hk : k ∈ m.map Prod.fst
  · rwa [if_pos hk]
  · rw [if_neg hk]
    simp [List.nodup_append, h, hk]

/-- Key membership after the fold: exactly the initial keys and the
folded URLs. -/
theorem foldl_mem_keys {β : Type} (f : String → β) :
    ∀ (urls : List String) (m : List (String × β)) (u : String),
      u ∈ (urls.foldl (fun m url => assocSet m url (f url)) m).map Prod.fst
        ↔ u ∈ m.map Prod.fst ∨ u ∈ urls := by
  intro urls
  induction urls with
  | nil => intro m u; simp
  | cons a rest ih =>
    intro m u
    simp only [List.foldl_cons]
    rw [ih, assocSet_mem_keys]
    simp [List.mem_cons]
    tauto

/-- The fold preserves distinctness of keys. -/
theorem foldl_keys_nodup {β : Type} (f : String → β) :
    ∀ (urls : List String) (m : List (String × β)), (m.map Prod.fst).Nodup →
      ((urls.foldl (fun m url => assocSet m url (f url)) m).map Prod.fst).Nodup := by
  intro urls
  induction urls with
  | nil => intro m h; exact h
  | cons a rest ih =>
    intro m h
    simp only [List.foldl_cons]
    exact ih _ (assocSet_keys_nodup m a (f a) h)

/-- Claim C5: for every URL list the batch orchestrator returns a
mapping with exactly one entry per distinct input URL; every input URL
is bound to its own task's handled result, so a dispatcher call that
raises is recorded as null for that URL without nullifying siblings;
and the concrete 5-URL batch with one always-raising task yields a
5-entry mapping with exactly one null and four non-null values. -/
theorem C5_batch_isolation :
    (∀ (fmtTs fmtPct : J → String) (rparse : String → RedditIn) (urls : List String)
        (fmt : OutputFormat) (dispatch : String → GatherOutcome) (n : Nat), 1 ≤ n →
      (((fetch_batch fmtTs fmtPct rparse urls fmt dispatch n).map Prod.fst).Nodup ∧
       (∀ u, u ∈ (fetch_batch fmtTs fmtPct rparse urls fmt dispatch n).map Prod.fst ↔ u ∈ urls) ∧
       (∀ u, u ∈ urls →
         assocGet (fetch_batch fmtTs fmtPct rparse urls fmt dispatch n) u
           = some (handle_batch_result fmtTs fmtPct rparse fmt u (dispatch u))) ∧
       (∀ u e, u ∈ urls → dispatch u = GatherOutcome.raised e →
         assocGet (fetch_batch fmtTs fmtPct rparse urls fmt dispatch n) u = some none))) ∧
    fetch_batch (fun _ => "") (fun _ => "") RedditIn.parseFail exBatchUrls
        OutputFormat.markdown exBatchDispatch 20
      = [("https://a.example.com", some "ok content"), ("https://b.example.com", some "ok content"),
         ("https://bad.example.com", none), ("https://c.example.com", some "ok content"),
         ("https://d.example.com", some "ok content")] ∧
    ((fetch_batch (fun _ => "") (fun _ => "") RedditIn.parseFail exBatchUrls
        OutputFormat.markdown exBatchDispatch 20).map Prod.snd).count none = 1 ∧
    (((fetch_batch (fun _ => "") (fun _ => "") RedditIn.parseFail exBatchUrls
        OutputFormat.markdown exBatchDispatch 20).map Prod.snd).filter
          (fun v => v ≠ none)).length = 4 := by
  refine ⟨?_, by decide, by decide, by decide⟩
  intro fmtTs fmtPct rparse urls fmt dispatch n hn
  rw [fetch_batch_eq_foldl fmtTs fmtPct rparse urls fmt dispatch n hn]
  refine ⟨foldl_keys_nodup _ urls [] (by simp), ?_, ?_, ?_⟩
  · intro u
    rw [foldl_mem_keys]
    simp
  · intro u hu
    exact assocGet_foldl_mem _ urls [] u hu
  · intro u e hu hdisp
    rw [assocGet_foldl_mem _ urls [] u hu, hdisp]
    rfl

/-- Witness for C5: a singleton batch whose only task raises is mapped
to null. -/
theorem C5_witness :
    assocGet (fetch_batch (fun _ => "") (fun _ => "") RedditIn.parseFail
        ["https://only.example.com"] OutputFormat.markdown
        (fun _ => GatherOutcome.raised PyExn.httpError) 1) "https://only.example.com"
      = some none :=
  ((C5_batch_isolation.1 (fun _ => "") (fun _ => "") RedditIn.parseFail
      ["https://only.example.com"] OutputFormat.markdown
      (fun _ => GatherOutcome.raised PyExn.httpError) 1 (by decide)).2.2.2)
    "https://only.example.com" PyExn.httpError (by decide) rfl

/-- Counterexample to claim C10 as stated: in a MARKDOWN batch, the
stored value for a task returning nested link syntax still contains a
`[text](url)` construct, and the stored value for a task returning a
bare scheme token followed by a space still contains `http://` — the
sanitizer's single pass misses both. -/
theorem C10_counterexample :
    assocGet (fetch_batch (fun _ => "") (fun _ => "") RedditIn.parseFail
        ["https://n.example.com", "https://s.example.com"] OutputFormat.markdown
        exSanitizerDispatch 20) "https://n.example.com" = some (some "[a](c)") ∧
    hasLinkConstruct "[a](c)" = true ∧
    assocGet (fetch_batch (fun _ => "") (fun _ => "") RedditIn.parseFail
        ["https://n.example.com", "https://s.example.com"] OutputFormat.markdown
        exSanitizerDispatch 20) "https://s.example.com" = some (some "x http:// y") ∧
    pyContains "x http:// y" "http://" = true := by
  exact ⟨by decide, by decide, by decide, by decide⟩

/-- Claim C10 (amended): in a MARKDOWN batch every non-Reddit URL's
stored value is null or the link sanitizer applied to the string its
task returned — the sanitizer is always interposed before storage
(YouTube transcripts and generic pages alike), though its output may
still contain nested link constructs or a bare scheme token. -/
theorem C10_sanitizer_routing :
    ∀ (fmtTs fmtPct : J → String) (rparse : String → RedditIn) (urls : List String)
      (dispatch : String → GatherOutcome) (n : Nat) (u : String), 1 ≤ n → u ∈ urls →
      pyContains u "reddit.com" = false →
      assocGet (fetch_batch fmtTs fmtPct rparse urls OutputFormat.markdown dispatch n) u
        = some (match dispatch u with
                | GatherOutcome.raised _ => none
                | GatherOutcome.value none => none
                | GatherOutcome.value (some s) => some (sanitize_markdown_links s)) := by
  intro fmtTs fmtPct rparse urls dispatch n u hn hu hred
  rw [fetch_batch_eq_foldl fmtTs fmtPct rparse urls OutputFormat.markdown dispatch n hn]
  rw [assocGet_foldl_mem _ urls [] u hu]
  congr 1
  unfold handle_batch_result
  cases dispatch u with
  | raised e => rfl
  | value v =>
    cases v with
    | none => simp [hred]
    | some s => simp [hred]

/-- Witness for C10: a concrete non-Reddit URL whose task returned a
linked Markdown string is stored sanitized. -/
theorem C10_witness :
    assocGet (fetch_batch (fun _ => "") (fun _ => "") RedditIn.parseFail
        ["https://w.example.com"] OutputFormat.markdown
        (fun _ => GatherOutcome.value (some "see [here](https://x.example.com)")) 1)
        "https://w.example.com"
      = some (some (sanitize_markdown_links "see [here](https://x.example.com)")) :=
  C10_sanitizer_routing (fun _ => "") (fun _ => "") RedditIn.parseFail
    ["https://w.example.com"]
    (fun _ => GatherOutcome.value (some "see [here](https://x.example.com)")) 1
    "https://w.example.com" (by decide) (by decide) (by decide)

end ShopBackend
